import Mathlib

/-!
Shallow embedding of the Watch-Server session registry, liveness sweep and
message router (src/heartbeat.py, src/data_handler.py, src/app.py).

Modelling choices:
* The global dict `connected_clients` is a `List (String × ClientEntry)` in
  Python-dict order: assigning to an existing key keeps its position,
  assigning a fresh key appends at the end, `del` removes the entry.
* `datetime.now()` is modelled by an explicit `Int` passed in for every call
  the source makes; successive reads of the clock are non-decreasing, which
  is stated as a hypothesis wherever a theorem needs it.  `register_client`
  evaluates `datetime.now()` twice (first for `last_heartbeat`, then for
  `connection_time`, in dict-literal evaluation order), so it takes two
  clock values.
* A websocket handle is an opaque `Nat`; `websocket.send_text(json.dumps m)`
  is recorded as a `Send` (destination handle, frame).  Frames are the exact
  JSON dict shapes the source builds, one constructor per shape.
* Payload blobs are opaque (`Payload := Nat`); `data.get('payload', {})`
  maps the missing case to the default blob `0`.
-/

namespace WatchServer

/-- Opaque JSON payload blob. `0` stands for the default `{}`. -/
abbrev Payload := Nat

/-- One value of the `connected_clients` dict (heartbeat.py `register_client`):
`{'websocket': …, 'last_heartbeat': …, 'connection_time': …, 'user_type': …}`. -/
structure ClientEntry where
  websocket : Nat
  last_heartbeat : Int
  connection_time : Int
  user_type : String
deriving DecidableEq

/-- The `connected_clients` dict, in Python dict (insertion) order. -/
abbrev Registry := List (String × ClientEntry)

/-- `connected_clients[k]` (first entry with key `k`). -/
def dictGet (k : String) : Registry → Option ClientEntry
  | [] => none
  | (k', v) :: rest => if k' = k then some v else dictGet k rest

/-- `connected_clients[k] = v`: overwrite in place if the key is present
(a Python dict keeps the key's position), else append. -/
def dictSet (k : String) (v : ClientEntry) : Registry → Registry
  | [] => [(k, v)]
  | (k', v') :: rest =>
      if k' = k then (k, v) :: rest else (k', v') :: dictSet k v rest

/-- The keys of the registry are pairwise distinct — true of a Python dict
by construction; the list model must carry it as an invariant. -/
def nodupKeys (reg : Registry) : Prop := (reg.map Prod.fst).Nodup

instance (reg : Registry) : Decidable (nodupKeys reg) :=
  List.nodupDecidable _

/-- heartbeat.py `register_client(client_id, websocket, user_type)`:
`connected_clients[client_id] = {'websocket': …, 'last_heartbeat': now₁,
'connection_time': now₂, 'user_type': …}`.  The two `datetime.now()` calls
are evaluated in that order, hence the two clock arguments. -/
def registerClient (client_id : String) (websocket : Nat) (user_type : String)
    (now₁ now₂ : Int) (reg : Registry) : Registry :=
  dictSet client_id ⟨websocket, now₁, now₂, user_type⟩ reg

/-- heartbeat.py `remove_client`: `if client_id in connected_clients: del …`. -/
def removeClient (client_id : String) : Registry → Registry
  | [] => []
  | (k, v) :: rest =>
      if k = client_id then rest else (k, v) :: removeClient client_id rest

/-- heartbeat.py `update_heartbeat`: `if client_id in connected_clients:
connected_clients[client_id]['last_heartbeat'] = datetime.now()`. -/
def updateHeartbeat (client_id : String) (now : Int) : Registry → Registry
  | [] => []
  | (k, v) :: rest =>
      if k = client_id then
        (k, ⟨v.websocket, now, v.connection_time, v.user_type⟩) :: rest
      else (k, v) :: updateHeartbeat client_id now rest

/-- One tick of heartbeat.py `heartbeat_checker`, first phase: the
`disconnected_clients` list collected while scanning `connected_clients`
(`(current_time - last_heartbeat).total_seconds() > 150`). -/
def disconnectedClients (current_time : Int) (reg : Registry) : List String :=
  (reg.filter (fun kv => current_time - kv.2.last_heartbeat > 150)).map Prod.fst

/-- One tick of heartbeat.py `heartbeat_checker`: collect the timed-out ids,
then delete each collected id from the dict. -/
def heartbeatTick (current_time : Int) (reg : Registry) : Registry :=
  (disconnectedClients current_time reg).foldl
    (fun r client_id => removeClient client_id r) reg

/-- Every JSON dict the router sends, one constructor per shape built in the
source. -/
inductive Frame where
  /-- `{'type': data_type, 'from': child_id, 'payload': …, 'timestamp': …}`
  (data_handler.py `forward_to_parent`). -/
  | forwardData (ty : String) (fromId : String) (payload : Payload) (timestamp : Int)
  /-- `{'type': 'command', 'command': …, 'payload': …, 'timestamp': …}`
  (data_handler.py `handle_parent_command`, forwarded to the child). -/
  | commandMsg (command : String) (payload : Payload) (timestamp : Int)
  /-- `{"status": …, "type": …}` (heartbeat/data acks). -/
  | ackType (status : String) (ty : String)
  /-- `{"status": …, "message": …}` (error acks). -/
  | ackMsg (status : String) (message : String)
  /-- `{"status": …, "message": …, "command": …}` (parent success ack). -/
  | ackCmd (status : String) (message : String) (command : String)
  /-- `{"status": "connected", "client_id": …, "user_type": …, …}`
  (app.py connection confirmation). -/
  | connected (client_id : String) (user_type : String)
deriving DecidableEq

/-- One `websocket.send_text(json.dumps frame)`: destination handle and frame. -/
structure Send where
  dest : Nat
  frame : Frame
deriving DecidableEq

/-- An inbound child frame as read by `handle_data_reception`:
`data.get('type', 'unknown')`, `data.get('payload', {})`. -/
structure ChildMsg where
  type : Option String
  payload : Option Payload
deriving DecidableEq

/-- An inbound parent frame as read by `handle_parent_command`:
`data.get('command', 'unknown')`, `data.get('target_child', '')`,
`data.get('payload', {})`. -/
structure ParentMsg where
  command : Option String
  target_child : Option String
  payload : Option Payload
deriving DecidableEq

/-- The recognized data kinds of data_handler.py line 32. -/
def recognizedKinds : List String :=
  ["camera", "microphone", "screen", "directory", "files", "location"]

/-- data_handler.py `forward_to_parent` first phase: scan
`connected_clients.items()` and break at the first entry whose
`user_type == 'parent'`. -/
def findParent : Registry → Option (String × ClientEntry)
  | [] => none
  | (k, v) :: rest => if v.user_type = "parent" then some (k, v) else findParent rest

/-- data_handler.py `forward_to_parent(child_id, data_type, payload)`:
send `{'type', 'from', 'payload', 'timestamp'}` to the first parent's
websocket if one exists, else only log a warning.  `now` is the
`datetime.now().isoformat()` timestamp. -/
def forwardToParent (child_id : String) (data_type : String) (payload : Payload)
    (now : Int) (reg : Registry) : List Send :=
  match findParent reg with
  | some (_, e) => [⟨e.websocket, Frame.forwardData data_type child_id payload now⟩]
  | none => []

/-- data_handler.py `handle_data_reception(websocket, client_id, data)`.
Returns the registry after the `update_heartbeat` and the list of sends, in
order.  `now₁` is the clock read inside `update_heartbeat`, `now₂` the
timestamp read inside `forward_to_parent`. -/
def handleDataReception (websocket : Nat) (client_id : String) (data : ChildMsg)
    (now₁ now₂ : Int) (reg : Registry) : Registry × List Send :=
  let reg₁ := updateHeartbeat client_id now₁ reg
  let data_type := data.type.getD "unknown"
  let payload := data.payload.getD 0
  if data_type = "heartbeat" then
    (reg₁, [⟨websocket, Frame.ackType "success" "heartbeat_ack"⟩])
  else if recognizedKinds.contains data_type then
    (reg₁, forwardToParent client_id data_type payload now₂ reg₁ ++
      [⟨websocket, Frame.ackType "success" (data_type ++ "_ack")⟩])
  else
    (reg₁, [⟨websocket, Frame.ackMsg "error" ("Unknown data type: " ++ data_type)⟩])

/-- data_handler.py `handle_parent_command(websocket, client_id, data)`.
Returns the registry after the `update_heartbeat` and the list of sends, in
order.  `now₁` is the clock read inside `update_heartbeat`, `now₂` the
forwarded command's timestamp. -/
def handleParentCommand (websocket : Nat) (client_id : String) (data : ParentMsg)
    (now₁ now₂ : Int) (reg : Registry) : Registry × List Send :=
  let reg₁ := updateHeartbeat client_id now₁ reg
  let command := data.command.getD "unknown"
  let target_child := data.target_child.getD ""
  let payload := data.payload.getD 0
  if target_child = "" then
    (reg₁, [⟨websocket, Frame.ackMsg "error" "Target child not specified"⟩])
  else
    match dictGet target_child reg₁ with
    | some child_conn =>
        (reg₁, [⟨child_conn.websocket, Frame.commandMsg command payload now₂⟩,
          ⟨websocket, Frame.ackCmd "success"
            ("Command " ++ command ++ " sent to " ++ target_child) command⟩])
    | none =>
        (reg₁, [⟨websocket, Frame.ackMsg "error"
          ("Target child " ++ target_child ++ " not found or offline")⟩])

/-- The dict `verify_token` returns on success (auth.py `users_db` entry);
app.py reads `user['role']` and `user['sub']` — the registered user dicts
carry `role`, and the token's `sub` claim names the user. -/
structure UserInfo where
  role : String
  sub : String
deriving DecidableEq

/-- One iteration's outcome of the read loop in app.py `websocket_endpoint`:
a successfully received and parsed text frame, a `WebSocketDisconnect`
raised on receive, or any other exception raised inside the loop body. -/
inductive LoopEvent where
  /-- `websocket.receive_text()` yields a frame; `childData` is its parse as a
  child message and `parentData` as a parent message (the handler chosen by
  `user_type` reads the fields it needs); `now₁ now₂` are the clock reads the
  chosen handler makes. -/
  | text (childData : ChildMsg) (parentData : ParentMsg) (now₁ now₂ : Int)
  /-- `WebSocketDisconnect` raised in the loop. -/
  | disconnect
  /-- any other `Exception` raised in the loop (read error, bad JSON, a
  failing send inside a handler). -/
  | loopError
deriving DecidableEq

/-- The `while True` read loop of app.py `websocket_endpoint` (lines
125–141), driven by a finite script of loop events.  Returns the final
registry and whether the coroutine has returned (`false` = the script ended
with the loop still blocked on the next receive). -/
def runLoop (user_type client_id : String) (websocket : Nat) :
    List LoopEvent → Registry → Registry × Bool
  | [], reg => (reg, false)
  | LoopEvent.text c p now₁ now₂ :: rest, reg =>
      let reg' :=
        if user_type = "child" then
          (handleDataReception websocket client_id c now₁ now₂ reg).1
        else if user_type = "parent" then
          (handleParentCommand websocket client_id p now₁ now₂ reg).1
        else reg
      runLoop user_type client_id websocket rest reg'
  | LoopEvent.disconnect :: _, reg => (removeClient client_id reg, true)
  | LoopEvent.loopError :: _, reg => (removeClient client_id reg, true)

/-- app.py `websocket_endpoint(websocket, client_id)` from after
`websocket.accept()`.  Inputs model the effects of the environment:
`authOk` — receiving/parsing the first (auth) frame did not raise;
`token` — `auth_data.get('token')`; `verifyResult` — `verify_token(token)`;
`now₁ now₂` — the two clock reads inside `register_client`;
`confirmOk` — sending the connection confirmation did not raise;
`events` — the read loop's script.  Returns the final registry and whether
the coroutine has returned.  When the confirmation send raises, control
reaches the outer `except Exception` (app.py line 143), which closes the
socket but does not call `remove_client`. -/
def websocketEndpoint (websocket : Nat) (client_id : String)
    (authOk : Bool) (token : Option String) (verifyResult : Option UserInfo)
    (now₁ now₂ : Int) (confirmOk : Bool) (events : List LoopEvent)
    (reg : Registry) : Registry × Bool :=
  if authOk then
    match token with
    | none => (reg, true)
    | some _ =>
      match verifyResult with
      | none => (reg, true)
      | some user =>
        let reg₁ := registerClient client_id websocket user.role now₁ now₂ reg
        if confirmOk then
          runLoop user.role client_id websocket events reg₁
        else
          (reg₁, true)
  else (reg, true)

/-- A schedule of "touch then sweep" rounds for one client: in each round the
client's heartbeat is updated at the first time and a `heartbeat_checker`
tick runs at the second time. -/
def runRounds (client_id : String) (rounds : List (Int × Int)) (reg : Registry) :
    Registry :=
  rounds.foldl (fun r p => heartbeatTick p.2 (updateHeartbeat client_id p.1 r)) reg

/-- Whether a frame carries `"status": "error"`. -/
def isErrorFrame : Frame → Bool
  | Frame.ackType s _ => s = "error"
  | Frame.ackMsg s _ => s = "error"
  | Frame.ackCmd s _ _ => s = "error"
  | _ => false

/-! ### Helper lemmas about the dict model -/

theorem dictGet_dictSet_self (k : String) (v : ClientEntry) (reg : Registry) :
    dictGet k (dictSet k v reg) = some v := by
  induction reg with
  | nil => simp [dictGet, dictSet]
  | cons kv rest ih =>
    by_cases h : kv.1 = k
    · simp [dictSet, dictGet, h]
    · simp [dictSet, dictGet, h, ih]

theorem dictGet_dictSet_ne (k k' : String) (v : ClientEntry) (reg : Registry)
    (h : k' ≠ k) : dictGet k' (dictSet k v reg) = dictGet k' reg := by
  induction reg with
  | nil => simp [dictGet, dictSet, h, Ne.symm h]
  | cons kv rest ih =>
    by_cases hk : kv.1 = k
    · simp [dictSet, dictGet, hk, h, Ne.symm h]
    · simp [dictSet, dictGet, hk, h, Ne.symm h, ih]

theorem keys_dictSet (k : String) (v : ClientEntry) (reg : Registry) :
    (dictSet k v reg).map Prod.fst = reg.map Prod.fst ∨
      (dictSet k v reg).map Prod.fst = reg.map Prod.fst ++ [k] := by
  induction reg with
  | nil => right; simp [dictSet]
  | cons kv rest ih =>
    by_cases h : kv.1 = k
    · left; simp [dictSet, h]
    · rcases ih with ih | ih
      · left; simp [dictSet, h, ih]
      · right; simp [dictSet, h, ih]

theorem mem_keys_dictSet (k k' : String) (v : ClientEntry) (reg : Registry) :
    k' ∈ (dictSet k v reg).map Prod.fst ↔
      k' ∈ reg.map Prod.fst ∨ k' = k := by
  induction reg with
  | nil => simp [dictSet]
  | cons kv rest ih =>
    by_cases h : kv.1 = k
    · subst h; simp [dictSet]; tauto
    · simp [dictSet, h, ih]; tauto

theorem nodupKeys_dictSet (k : String) (v : ClientEntry) (reg : Registry)
    (h : nodupKeys reg) : nodupKeys (dictSet k v reg) := by
  induction reg with
  | nil => simp [dictSet, nodupKeys]
  | cons kv rest ih =>
    rw [nodupKeys, List.map_cons, List.nodup_cons] at h
    by_cases hk : kv.1 = k
    · rw [nodupKeys]
      simp only [dictSet, hk, if_pos]
      rw [List.map_cons, List.nodup_cons]
      exact ⟨hk ▸ h.1, h.2⟩
    · rw [nodupKeys]
      simp only [dictSet, hk, if_neg, ite_false]
      rw [List.map_cons, List.nodup_cons]
      refine ⟨?_, ih h.2⟩
      rw [mem_keys_dictSet]
      rintro (hm | hm)
      · exact h.1 hm
      · exact hk hm

theorem dictGet_updateHeartbeat (client_id : String) (now : Int) (reg : Registry)
    (k : String) :
    dictGet k (updateHeartbeat client_id now reg) =
      if k = client_id then
        (dictGet k reg).map (fun e => ⟨e.websocket, now, e.connection_time, e.user_type⟩)
      else dictGet k reg := by
  induction reg with
  | nil => simp [updateHeartbeat, dictGet]
  | cons kv rest ih =>
    by_cases hid : kv.1 = client_id
    · by_cases hk : k = client_id
      · simp [updateHeartbeat, dictGet, hid, hk]
      · have h1 : ¬ kv.1 = k := by rw [hid]; exact fun hh => hk hh.symm
        have h2 : ¬ client_id = k := fun hh => hk hh.symm
        simp [updateHeartbeat, dictGet, hid, hk, h1, h2]
    · by_cases hk : kv.1 = k
      · have h1 : ¬ k = client_id := by rw [← hk]; exact fun hh => hid hh
        simp [updateHeartbeat, dictGet, hid, hk, h1]
      · simp [updateHeartbeat, dictGet, hid, hk, ih]

theorem keys_updateHeartbeat (client_id : String) (now : Int) (reg : Registry) :
    (updateHeartbeat client_id now reg).map Prod.fst = reg.map Prod.fst := by
  induction reg with
  | nil => simp [updateHeartbeat]
  | cons kv rest ih =>
    by_cases hid : kv.1 = client_id
    · simp [updateHeartbeat, hid]
    · simp [updateHeartbeat, hid, ih]

theorem nodupKeys_updateHeartbeat (client_id : String) (now : Int) (reg : Registry)
    (h : nodupKeys reg) : nodupKeys (updateHeartbeat client_id now reg) := by
  rw [nodupKeys, keys_updateHeartbeat]; exact h

theorem removeClient_sublist (client_id : String) (reg : Registry) :
    List.Sublist (removeClient client_id reg) reg := by
  induction reg with
  | nil => simp [removeClient]
  | cons kv rest ih =>
    by_cases h : kv.1 = client_id
    · simp only [removeClient, h, if_pos]
      exact List.sublist_cons_self kv rest
    · simpa [removeClient, h] using ih.cons₂ kv

theorem nodupKeys_removeClient (client_id : String) (reg : Registry)
    (h : nodupKeys reg) : nodupKeys (removeClient client_id reg) :=
  List.Nodup.sublist ((removeClient_sublist client_id reg).map Prod.fst) h

theorem dictGet_removeClient_ne (client_id k : String) (reg : Registry)
    (h : k ≠ client_id) :
    dictGet k (removeClient client_id reg) = dictGet k reg := by
  induction reg with
  | nil => simp [removeClient]
  | cons kv rest ih =>
    by_cases hid : kv.1 = client_id
    · have h1 : ¬ kv.1 = k := by rw [hid]; exact fun hh => h hh.symm
      have h2 : ¬ client_id = k := fun hh => h hh.symm
      simp [removeClient, dictGet, hid, h1, h2]
    · simp [removeClient, dictGet, hid, ih]

theorem mem_of_dictGet (k : String) (e : ClientEntry) (reg : Registry)
    (h : dictGet k reg = some e) : (k, e) ∈ reg := by
  induction reg with
  | nil => simp [dictGet] at h
  | cons kv rest ih =>
    obtain ⟨a, b⟩ := kv
    by_cases hk : a = k
    · simp only [dictGet] at h
      rw [if_pos hk] at h
      injection h with h
      rw [List.mem_cons]
      left
      rw [hk, h]
    · simp only [dictGet] at h
      rw [if_neg hk] at h
      exact List.mem_cons_of_mem _ (ih h)

theorem dictGet_of_mem (k : String) (e : ClientEntry) (reg : Registry)
    (hnd : nodupKeys reg) (h : (k, e) ∈ reg) : dictGet k reg = some e := by
  induction reg with
  | nil => simp at h
  | cons kv rest ih =>
    rw [nodupKeys, List.map_cons, List.nodup_cons] at hnd
    rcases List.mem_cons.mp h with h | h
    · rw [← h]; simp [dictGet]
    · have hk : ¬ kv.1 = k := by
        intro hh
        exact hnd.1 (hh ▸ (List.mem_map_of_mem Prod.fst h))
      rw [dictGet, if_neg hk]
      exact ih hnd.2 h

theorem dictGet_none_of_not_mem_keys (k : String) (reg : Registry)
    (h : k ∉ reg.map Prod.fst) : dictGet k reg = none := by
  induction reg with
  | nil => simp [dictGet]
  | cons kv rest ih =>
    rw [List.map_cons, List.mem_cons] at h
    push_neg at h
    rw [dictGet, if_neg (fun hh => h.1 hh.symm)]
    exact ih h.2

theorem dictGet_removeClient_self (client_id : String) (reg : Registry)
    (hnd : nodupKeys reg) :
    dictGet client_id (removeClient client_id reg) = none := by
  induction reg with
  | nil => simp [removeClient, dictGet]
  | cons kv rest ih =>
    rw [nodupKeys, List.map_cons, List.nodup_cons] at hnd
    by_cases hid : kv.1 = client_id
    · rw [removeClient, if_pos hid]
      exact dictGet_none_of_not_mem_keys _ _ (hid ▸ hnd.1)
    · rw [removeClient, if_neg hid, dictGet, if_neg hid]
      exact ih hnd.2

theorem foldl_removeClient_sublist (L : List String) (reg : Registry) :
    List.Sublist (L.foldl (fun r client_id => removeClient client_id r) reg) reg := by
  induction L generalizing reg with
  | nil => simp
  | cons a L ih =>
    rw [List.foldl_cons]
    exact (ih (removeClient a reg)).trans (removeClient_sublist a reg)

theorem nodupKeys_foldl_removeClient (L : List String) (reg : Registry)
    (hnd : nodupKeys reg) :
    nodupKeys (L.foldl (fun r client_id => removeClient client_id r) reg) :=
  List.Nodup.sublist ((foldl_removeClient_sublist L reg).map Prod.fst) hnd

theorem dictGet_foldl_removeClient (L : List String) (reg : Registry) (k : String)
    (hnd : nodupKeys reg) :
    dictGet k (L.foldl (fun r client_id => removeClient client_id r) reg) =
      if k ∈ L then none else dictGet k reg := by
  induction L generalizing reg with
  | nil => simp
  | cons a L ih =>
    rw [List.foldl_cons, ih (removeClient a reg) (nodupKeys_removeClient a reg hnd)]
    by_cases hkL : k ∈ L
    · simp [hkL]
    · by_cases hka : k = a
      · subst hka
        simp [hkL, dictGet_removeClient_self k reg hnd]
      · simp [hkL, hka, dictGet_removeClient_ne a k reg hka]

theorem mem_disconnectedClients (current_time : Int) (reg : Registry) (k : String)
    (hnd : nodupKeys reg) :
    k ∈ disconnectedClients current_time reg ↔
      ∃ e, dictGet k reg = some e ∧ current_time - e.last_heartbeat > 150 := by
  constructor
  · intro h
    rw [disconnectedClients, List.mem_map] at h
    obtain ⟨kv, hkv, hfst⟩ := h
    rw [List.mem_filter] at hkv
    refine ⟨kv.2, ?_, by simpa using hkv.2⟩
    rw [← hfst]
    exact dictGet_of_mem kv.1 kv.2 reg hnd (by simpa using hkv.1)
  · rintro ⟨e, hget, hold⟩
    rw [disconnectedClients, List.mem_map]
    refine ⟨(k, e), ?_, rfl⟩
    rw [List.mem_filter]
    exact ⟨mem_of_dictGet k e reg hget, by simpa using hold⟩

theorem dictGet_heartbeatTick (current_time : Int) (reg : Registry) (k : String)
    (hnd : nodupKeys reg) :
    dictGet k (heartbeatTick current_time reg) =
      match dictGet k reg with
      | none => none
      | some e =>
          if current_time - e.last_heartbeat > 150 then none else some e := by
  rw [heartbeatTick, dictGet_foldl_removeClient _ _ _ hnd]
  rcases hget : dictGet k reg with _ | e
  · by_cases hk : k ∈ disconnectedClients current_time reg
    · simp [hk]
    · simp [hk, hget]
  · by_cases hold : current_time - e.last_heartbeat > 150
    · have : k ∈ disconnectedClients current_time reg :=
        (mem_disconnectedClients current_time reg k hnd).mpr ⟨e, hget, hold⟩
      simp [this, hold]
    · have : k ∉ disconnectedClients current_time reg := by
        intro hmem
        obtain ⟨e', hget', hold'⟩ :=
          (mem_disconnectedClients current_time reg k hnd).mp hmem
        rw [hget] at hget'
        injection hget' with he
        exact hold (he ▸ hold')
      simp [this, hold, hget]

theorem nodupKeys_heartbeatTick (current_time : Int) (reg : Registry)
    (hnd : nodupKeys reg) : nodupKeys (heartbeatTick current_time reg) :=
  nodupKeys_foldl_removeClient _ _ hnd

theorem findParent_eq_none_iff (reg : Registry) :
    findParent reg = none ↔ ∀ kv ∈ reg, kv.2.user_type ≠ "parent" := by
  induction reg with
  | nil => simp [findParent]
  | cons kv rest ih =>
    by_cases h : kv.2.user_type = "parent"
    · simp [findParent, h]
    · simp [findParent, h, ih]

theorem findParent_eq_some (reg : Registry) (p : String) (e : ClientEntry)
    (h : findParent reg = some (p, e)) :
    e.user_type = "parent" ∧
      ∃ pre post, reg = pre ++ (p, e) :: post ∧
        ∀ kv ∈ pre, kv.2.user_type ≠ "parent" := by
  induction reg with
  | nil => simp [findParent] at h
  | cons kv rest ih =>
    by_cases hp : kv.2.user_type = "parent"
    · rw [findParent, if_pos hp] at h
      injection h with h
      have hkv : kv = (p, e) := by rw [← h]
      subst hkv
      exact ⟨hp, [], rest, rfl, by simp⟩
    · rw [findParent, if_neg hp] at h
      obtain ⟨he, pre, post, hsplit, hpre⟩ := ih h
      refine ⟨he, kv :: pre, post, by rw [hsplit]; rfl, ?_⟩
      intro kv' hkv'
      rcases List.mem_cons.mp hkv' with hkv' | hkv'
      · rw [hkv']; exact hp
      · exact hpre kv' hkv'

theorem mem_updateHeartbeat (client_id : String) (now : Int) (reg : Registry)
    (kv' : String × ClientEntry) (h : kv' ∈ updateHeartbeat client_id now reg) :
    ∃ kv ∈ reg, kv'.1 = kv.1 ∧ kv'.2.user_type = kv.2.user_type := by
  induction reg with
  | nil => simp [updateHeartbeat] at h
  | cons kv rest ih =>
    by_cases hid : kv.1 = client_id
    · rw [updateHeartbeat, if_pos hid] at h
      rcases List.mem_cons.mp h with h | h
      · exact ⟨kv, List.mem_cons_self kv rest, by rw [h]; exact ⟨rfl, rfl⟩⟩
      · exact ⟨kv', List.mem_cons_of_mem _ h, rfl, rfl⟩
    · rw [updateHeartbeat, if_neg hid] at h
      rcases List.mem_cons.mp h with h | h
      · exact ⟨kv, List.mem_cons_self kv rest, by rw [h]; exact ⟨rfl, rfl⟩⟩
      · obtain ⟨kv0, hm, h1, h2⟩ := ih h
        exact ⟨kv0, List.mem_cons_of_mem _ hm, h1, h2⟩

theorem findParent_updateHeartbeat_none (client_id : String) (now : Int)
    (reg : Registry) (h : findParent reg = none) :
    findParent (updateHeartbeat client_id now reg) = none := by
  rw [findParent_eq_none_iff] at h ⊢
  intro kv' hkv'
  obtain ⟨kv, hm, _, hut⟩ := mem_updateHeartbeat client_id now reg kv' hkv'
  rw [hut]
  exact h kv hm

theorem survives_rounds (rounds : List (Int × Int)) (reg : Registry)
    (id : String) (e : ClientEntry) (hnd : nodupKeys reg)
    (hget : dictGet id reg = some e)
    (hall : ∀ p ∈ rounds, p.2 - p.1 ≤ 150) :
    (dictGet id (runRounds id rounds reg)).isSome = true := by
  induction rounds generalizing reg e with
  | nil =>
    rw [runRounds, List.foldl_nil, hget]
    rfl
  | cons r rounds ih =>
    obtain ⟨t₁, t₂⟩ := r
    have h1 : dictGet id (updateHeartbeat id t₁ reg) =
        some ⟨e.websocket, t₁, e.connection_time, e.user_type⟩ := by
      rw [dictGet_updateHeartbeat, if_pos rfl, hget, Option.map_some']
    have hnd1 : nodupKeys (updateHeartbeat id t₁ reg) :=
      nodupKeys_updateHeartbeat _ _ _ hnd
    have h2 : dictGet id (heartbeatTick t₂ (updateHeartbeat id t₁ reg)) =
        some ⟨e.websocket, t₁, e.connection_time, e.user_type⟩ := by
      rw [dictGet_heartbeatTick _ _ _ hnd1, h1]
      have hle : t₂ - t₁ ≤ 150 := hall (t₁, t₂) (List.mem_cons_self _ _)
      simp only []
      rw [if_neg (by omega)]
    have hnd2 : nodupKeys (heartbeatTick t₂ (updateHeartbeat id t₁ reg)) :=
      nodupKeys_heartbeatTick _ _ hnd1
    have hrest := ih _ _ hnd2 h2 (fun p hp => hall p (List.mem_cons_of_mem _ hp))
    rw [runRounds, List.foldl_cons]
    rw [runRounds] at hrest
    exact hrest

/-! ### Claim theorems -/

/-- C1: the Registry holds at most one entry per session id at any instant;
after `register(id, h1)` followed by `register(id, h2)`, `get(id)` returns
the entry whose handle is `h2` (last-writer-wins replacement), and neither
registration fails: both stages leave the keys duplicate-free and `id`
registered, with the final entry carrying exactly the second registration's
handle, timestamps and role. -/
theorem C1_register_last_writer_wins (reg : Registry) (id : String)
    (h1 h2 : Nat) (ut1 ut2 : String) (ta tb tc td : Int)
    (hnd : nodupKeys reg) :
    nodupKeys (registerClient id h1 ut1 ta tb reg) ∧
    dictGet id (registerClient id h1 ut1 ta tb reg) = some ⟨h1, ta, tb, ut1⟩ ∧
    nodupKeys (registerClient id h2 ut2 tc td (registerClient id h1 ut1 ta tb reg)) ∧
    dictGet id (registerClient id h2 ut2 tc td (registerClient id h1 ut1 ta tb reg)) =
      some ⟨h2, tc, td, ut2⟩ := by
  unfold registerClient
  exact ⟨nodupKeys_dictSet _ _ _ hnd, dictGet_dictSet_self _ _ _,
    nodupKeys_dictSet _ _ _ (nodupKeys_dictSet _ _ _ hnd), dictGet_dictSet_self _ _ _⟩

/-- C1 witness: the double registration evaluated on a concrete registry. -/
theorem C1_register_last_writer_wins_witness :
    nodupKeys (registerClient "a" 1 "child" 0 0 [("b", ⟨9, 0, 0, "parent"⟩)]) ∧
    dictGet "a" (registerClient "a" 1 "child" 0 0 [("b", ⟨9, 0, 0, "parent"⟩)]) =
      some ⟨1, 0, 0, "child"⟩ ∧
    nodupKeys (registerClient "a" 2 "child" 3 4
      (registerClient "a" 1 "child" 0 0 [("b", ⟨9, 0, 0, "parent"⟩)])) ∧
    dictGet "a" (registerClient "a" 2 "child" 3 4
      (registerClient "a" 1 "child" 0 0 [("b", ⟨9, 0, 0, "parent"⟩)])) =
      some ⟨2, 3, 4, "child"⟩ :=
  C1_register_last_writer_wins [("b", ⟨9, 0, 0, "parent"⟩)] "a" 1 2 "child" "child"
    0 0 3 4 (by decide)

/-- C7: the claim says `Registry.remove(id)` runs on every exit path of the
connection's lifetime after successful registration.  The code violates it:
when the connection-confirmation send (app.py lines 116–122, after
`register_client`) raises, control reaches the outer `except Exception`
(line 143), which closes the socket and returns without `remove_client`.
At that concrete input the coroutine has returned yet the session is still
registered. -/
theorem C7_confirmation_failure_skips_cleanup :
    (websocketEndpoint 7 "child1" true (some "tok") (some ⟨"child", "alice"⟩)
        0 0 false [] []).2 = true ∧
    dictGet "child1" (websocketEndpoint 7 "child1" true (some "tok")
        (some ⟨"child", "alice"⟩) 0 0 false [] []).1 = some ⟨7, 0, 0, "child"⟩ := by
  decide

/-- C8 counterexample: `register_client` evaluates `datetime.now()` for
`last_heartbeat` before the `datetime.now()` for `connection_time`; on a
trace where the clock advances between the two reads (0 then 1) the freshly
registered session has `lastActivity = 0 < 1 = establishedAt`, so
`lastActivity ≥ establishedAt` fails with no touch involved. -/
theorem C8_counterexample :
    (dictGet "a" (registerClient "a" 1 "child" 0 1 [])).isSome = true ∧
    (dictGet "a" (registerClient "a" 1 "child" 0 1 [])).any
      (fun e => e.connection_time ≤ e.last_heartbeat) = false := by
  decide

/-- C8 amended: immediately after `register` the entry satisfies
`lastActivity ≤ establishedAt` (the clock is read for `lastActivity` first,
`establishedAt` second), and once `touch` has updated the session at any
later time the entry satisfies `lastActivity ≥ establishedAt`, with
`establishedAt` unchanged and `lastActivity` equal to the touch time. -/
theorem C8_touch_restores_invariant (reg : Registry) (id : String) (ws : Nat)
    (ut : String) (t₁ t₂ t₃ : Int) (h12 : t₁ ≤ t₂) (h23 : t₂ ≤ t₃) :
    (∀ e, dictGet id (registerClient id ws ut t₁ t₂ reg) = some e →
        e.last_heartbeat ≤ e.connection_time) ∧
    (∀ e, dictGet id (updateHeartbeat id t₃ (registerClient id ws ut t₁ t₂ reg)) =
        some e →
        e.connection_time ≤ e.last_heartbeat ∧
        e.connection_time = t₂ ∧ e.last_heartbeat = t₃) := by
  have hget : dictGet id (registerClient id ws ut t₁ t₂ reg) = some ⟨ws, t₁, t₂, ut⟩ :=
    dictGet_dictSet_self _ _ _
  constructor
  · intro e he
    rw [hget] at he
    injection he with he
    rw [← he]
    exact h12
  · intro e he
    rw [dictGet_updateHeartbeat, if_pos rfl, hget] at he
    simp only [Option.map_some'] at he
    injection he with he
    rw [← he]
    exact ⟨h23, rfl, rfl⟩

/-- C8 amended, witness: evaluated at registration clock reads 0 ≤ 1 and a
touch at time 5. -/
theorem C8_touch_restores_invariant_witness :
    (∀ e, dictGet "a" (registerClient "a" 1 "child" 0 1 []) = some e →
        e.last_heartbeat ≤ e.connection_time) ∧
    (∀ e, dictGet "a" (updateHeartbeat "a" 5 (registerClient "a" 1 "child" 0 1 [])) =
        some e →
        e.connection_time ≤ e.last_heartbeat ∧
        e.connection_time = 1 ∧ e.last_heartbeat = 5) :=
  C8_touch_restores_invariant [] "a" 1 "child" 0 1 5 (by decide) (by decide)

/-- C2: on a sweep tick at `current_time`, every registered session whose
elapsed time since its last activity strictly exceeds 150 seconds is gone
after the tick, every session whose elapsed time is at most 150 seconds
remains registered (with its entry unchanged); and a session that is
touched within every 150-second window before each tick survives across
arbitrarily many touch-then-tick rounds. -/
theorem C2_sweep_eviction_and_survival (reg : Registry) (current_time : Int)
    (hnd : nodupKeys reg) :
    (∀ id e, dictGet id reg = some e →
        (current_time - e.last_heartbeat > 150 →
          dictGet id (heartbeatTick current_time reg) = none) ∧
        (current_time - e.last_heartbeat ≤ 150 →
          dictGet id (heartbeatTick current_time reg) = some e)) ∧
    (∀ (rounds : List (Int × Int)) id e, dictGet id reg = some e →
        (∀ p ∈ rounds, p.2 - p.1 ≤ 150) →
        (dictGet id (runRounds id rounds reg)).isSome = true) := by
  constructor
  · intro id e hget
    rw [dictGet_heartbeatTick _ _ _ hnd, hget]
    constructor
    · intro hold
      simp only []
      rw [if_pos hold]
    · intro hyoung
      simp only []
      rw [if_neg (by omega)]
  · intro rounds id e hget hall
    exact survives_rounds rounds reg id e hnd hget hall

/-- C2 witness: on the registry holding one session with `lastActivity = 0`,
a tick at time 200 evicts it (elapsed 200 > 150), a tick at time 100 keeps
it, and touching at times 10 and 160 keeps it registered across ticks at
times 100 and 250. -/
theorem C2_sweep_eviction_and_survival_witness :
    (dictGet "a" (heartbeatTick 200 [("a", ⟨1, 0, 0, "child"⟩)]) = none ∧
      dictGet "a" (heartbeatTick 100 [("a", ⟨1, 0, 0, "child"⟩)]) =
        some ⟨1, 0, 0, "child"⟩) ∧
    (dictGet "a" (runRounds "a" [(10, 100), (160, 250)]
        [("a", ⟨1, 0, 0, "child"⟩)])).isSome = true := by
  refine ⟨⟨?_, ?_⟩, ?_⟩
  · exact ((C2_sweep_eviction_and_survival [("a", ⟨1, 0, 0, "child"⟩)] 200
      (by decide)).1 "a" ⟨1, 0, 0, "child"⟩ (by decide)).1 (by decide)
  · exact ((C2_sweep_eviction_and_survival [("a", ⟨1, 0, 0, "child"⟩)] 100
      (by decide)).1 "a" ⟨1, 0, 0, "child"⟩ (by decide)).2 (by decide)
  · exact (C2_sweep_eviction_and_survival [("a", ⟨1, 0, 0, "child"⟩)] 0
      (by decide)).2 [(10, 100), (160, 250)] "a" ⟨1, 0, 0, "child"⟩
      (by decide) (by decide)

/-- C3 counterexample: the claim promises the "not found or offline" error
acknowledgment whenever `target_child` is not a registered session, but for
the (unregistered) empty `target_child` the code takes the earlier
`if not target_child` branch and replies "Target child not specified"
instead — a different acknowledgment — so the claim as stated fails at
this concrete input. -/
theorem C3_counterexample :
    dictGet "" [("K", ⟨10, 0, 0, "parent"⟩), ("A", ⟨20, 0, 0, "child"⟩)] = none ∧
    (handleParentCommand 10 "K" ⟨some "snapshot", some "", some 5⟩ 1 2
        [("K", ⟨10, 0, 0, "parent"⟩), ("A", ⟨20, 0, 0, "child"⟩)]).2 =
      [⟨10, Frame.ackMsg "error" "Target child not specified"⟩] ∧
    Frame.ackMsg "error" "Target child not specified" ≠
      Frame.ackMsg "error" "Target child  not found or offline" := by
  decide

/-- C3 amended: provided `target_child` is non-empty, a controller command
naming a registered session makes that session's handle receive exactly one
`{type: "command", command, payload, timestamp}` frame and the controller
exactly one success acknowledgment naming the command and target, while an
unregistered `target_child` yields exactly the "not found or offline" error
acknowledgment and no forwarded frame; an empty or missing `target_child`
instead yields the "Target child not specified" error and no forwarding. -/
theorem C3_command_routing (reg : Registry) (ws : Nat)
    (client_id command target : String) (payload : Payload) (t₁ t₂ : Int)
    (hne : target ≠ "") :
    (∀ e, dictGet target reg = some e →
        (handleParentCommand ws client_id ⟨some command, some target, some payload⟩
            t₁ t₂ reg).2 =
          [⟨e.websocket, Frame.commandMsg command payload t₂⟩,
           ⟨ws, Frame.ackCmd "success"
             ("Command " ++ command ++ " sent to " ++ target) command⟩]) ∧
    (dictGet target reg = none →
        (handleParentCommand ws client_id ⟨some command, some target, some payload⟩
            t₁ t₂ reg).2 =
          [⟨ws, Frame.ackMsg "error"
            ("Target child " ++ target ++ " not found or offline")⟩]) := by
  constructor
  · intro e hget
    have h1 : dictGet target (updateHeartbeat client_id t₁ reg) =
        some (if target = client_id then
          ⟨e.websocket, t₁, e.connection_time, e.user_type⟩ else e) := by
      rw [dictGet_updateHeartbeat]
      by_cases h : target = client_id
      · rw [if_pos h, if_pos h, hget, Option.map_some']
      · rw [if_neg h, if_neg h, hget]
    by_cases h : target = client_id
    · rw [if_pos h] at h1
      simp [handleParentCommand, hne, h1]
    · rw [if_neg h] at h1
      simp [handleParentCommand, hne, h1]
  · intro hget
    have h1 : dictGet target (updateHeartbeat client_id t₁ reg) = none := by
      rw [dictGet_updateHeartbeat]
      by_cases h : target = client_id
      · rw [if_pos h, hget, Option.map_none']
      · rw [if_neg h, hget]
    simp [handleParentCommand, hne, h1]

/-- C3 amended, witness: with controller K (handle 10) and agent A
(handle 20) registered, the command to A is forwarded to handle 20 with a
success acknowledgment, and the command to the unregistered "B" yields the
"not found or offline" error. -/
theorem C3_command_routing_witness :
    (handleParentCommand 10 "K" ⟨some "snapshot", some "A", some 5⟩ 1 2
        [("K", ⟨10, 0, 0, "parent"⟩), ("A", ⟨20, 0, 0, "child"⟩)]).2 =
      [⟨20, Frame.commandMsg "snapshot" 5 2⟩,
       ⟨10, Frame.ackCmd "success" ("Command " ++ "snapshot" ++ " sent to " ++ "A")
         "snapshot"⟩] ∧
    (handleParentCommand 10 "K" ⟨some "snapshot", some "B", some 5⟩ 1 2
        [("K", ⟨10, 0, 0, "parent"⟩), ("A", ⟨20, 0, 0, "child"⟩)]).2 =
      [⟨10, Frame.ackMsg "error"
        ("Target child " ++ "B" ++ " not found or offline")⟩] :=
  ⟨(C3_command_routing [("K", ⟨10, 0, 0, "parent"⟩), ("A", ⟨20, 0, 0, "child"⟩)]
      10 "K" "snapshot" "A" 5 1 2 (by decide)).1 ⟨20, 0, 0, "child"⟩ (by decide),
   (C3_command_routing [("K", ⟨10, 0, 0, "parent"⟩), ("A", ⟨20, 0, 0, "child"⟩)]
      10 "K" "snapshot" "B" 5 1 2 (by decide)).2 (by decide)⟩

/-- C4: with exactly one controller `C` and one agent `A` registered (in
either dict order), an inbound frame from `A` with a recognized data kind
produces exactly two sends: one forwarded frame to `C`'s handle carrying the
kind, `from = A`'s id, the payload and a timestamp, and one success
acknowledgment `{kind}_ack` to `A`. -/
theorem C4_agent_data_forwarded (cid aid : String) (ce ae : ClientEntry)
    (reg : Registry) (ws : Nat) (kind : String) (payload : Payload) (t₁ t₂ : Int)
    (hreg : reg = [(cid, ce), (aid, ae)] ∨ reg = [(aid, ae), (cid, ce)])
    (hC : ce.user_type = "parent") (hA : ae.user_type = "child")
    (hne : cid ≠ aid) (hkind : kind ∈ recognizedKinds) :
    (handleDataReception ws aid ⟨some kind, some payload⟩ t₁ t₂ reg).2 =
      [⟨ce.websocket, Frame.forwardData kind aid payload t₂⟩,
       ⟨ws, Frame.ackType "success" (kind ++ "_ack")⟩] := by
  have hhb : kind ≠ "heartbeat" := by
    intro h
    rw [h] at hkind
    exact absurd hkind (by decide)
  have hcont : recognizedKinds.contains kind = true := List.elem_iff.mpr hkind
  have hcp : ae.user_type ≠ "parent" := by rw [hA]; decide
  rcases hreg with h | h <;> subst h
  · simp [handleDataReception, updateHeartbeat, hne, Ne.symm hne, hhb, hcont,
      hkind, forwardToParent, findParent, hC]
  · simp [handleDataReception, updateHeartbeat, hne, Ne.symm hne, hhb, hcont,
      hkind, forwardToParent, findParent, hC, hcp]

/-- C4 witness: controller K (handle 10) and agent A (handle 20), in both
dict orders, with a `camera` frame from A. -/
theorem C4_agent_data_forwarded_witness :
    (handleDataReception 20 "A" ⟨some "camera", some 5⟩ 1 2
        [("K", ⟨10, 0, 0, "parent"⟩), ("A", ⟨20, 0, 0, "child"⟩)]).2 =
      [⟨10, Frame.forwardData "camera" "A" 5 2⟩,
       ⟨20, Frame.ackType "success" ("camera" ++ "_ack")⟩] ∧
    (handleDataReception 20 "A" ⟨some "camera", some 5⟩ 1 2
        [("A", ⟨20, 0, 0, "child"⟩), ("K", ⟨10, 0, 0, "parent"⟩)]).2 =
      [⟨10, Frame.forwardData "camera" "A" 5 2⟩,
       ⟨20, Frame.ackType "success" ("camera" ++ "_ack")⟩] :=
  ⟨C4_agent_data_forwarded "K" "A" ⟨10, 0, 0, "parent"⟩ ⟨20, 0, 0, "child"⟩
      [("K", ⟨10, 0, 0, "parent"⟩), ("A", ⟨20, 0, 0, "child"⟩)] 20 "camera" 5 1 2
      (Or.inl rfl) rfl rfl (by decide) (by decide),
   C4_agent_data_forwarded "K" "A" ⟨10, 0, 0, "parent"⟩ ⟨20, 0, 0, "child"⟩
      [("A", ⟨20, 0, 0, "child"⟩), ("K", ⟨10, 0, 0, "parent"⟩)] 20 "camera" 5 1 2
      (Or.inr rfl) rfl rfl (by decide) (by decide)⟩

/-- C5: for every recognized non-heartbeat kind sent by an agent, the last
send of the handler is the success acknowledgment `{kind}_ack` to the
sender's own handle, for an arbitrary registry — so the acknowledgment is
the same whether or not any controller is registered to receive the
forwarded data. -/
theorem C5_ack_regardless_of_controller (reg : Registry) (ws : Nat)
    (client_id kind : String) (payload : Payload) (t₁ t₂ : Int)
    (hkind : kind ∈ recognizedKinds) :
    (handleDataReception ws client_id ⟨some kind, some payload⟩ t₁ t₂ reg).2.getLast? =
      some ⟨ws, Frame.ackType "success" (kind ++ "_ack")⟩ := by
  have hhb : kind ≠ "heartbeat" := by
    intro h
    rw [h] at hkind
    exact absurd hkind (by decide)
  have hcont : recognizedKinds.contains kind = true := List.elem_iff.mpr hkind
  simp only [handleDataReception, Option.getD_some, if_neg hhb, hcont, if_pos]
  rw [List.getLast?_concat]

/-- C5 witness: a `camera` frame evaluated on the empty registry (no
controller at all). -/
theorem C5_ack_regardless_of_controller_witness :
    (handleDataReception 20 "A" ⟨some "camera", some 5⟩ 1 2 []).2.getLast? =
      some ⟨20, Frame.ackType "success" ("camera" ++ "_ack")⟩ :=
  C5_ack_regardless_of_controller [] 20 "A" "camera" 5 1 2 (by decide)

/-- C6 counterexample: with no controller registered, an agent's `camera`
frame yields no error acknowledgment at all — every send carries
`status = "success"` — contradicting the claim that the routing failure is
reported to the sender as an error acknowledgment. -/
theorem C6_counterexample :
    findParent [("A", ⟨20, 0, 0, "child"⟩)] = none ∧
    (handleDataReception 20 "A" ⟨some "camera", some 5⟩ 1 2
        [("A", ⟨20, 0, 0, "child"⟩)]).2.any (fun s => isErrorFrame s.frame) = false := by
  decide

/-- C6 amended: when an agent sends a recognized data kind and no controller
is present, the forwarded message is dropped with no retry or queuing — the
handler's only send is the acknowledgment to the sender — but the failure is
not reported as an error: that acknowledgment is the success `{kind}_ack`. -/
theorem C6_drop_without_error (reg : Registry) (ws : Nat)
    (client_id kind : String) (payload : Payload) (t₁ t₂ : Int)
    (hkind : kind ∈ recognizedKinds) (hnp : findParent reg = none) :
    (handleDataReception ws client_id ⟨some kind, some payload⟩ t₁ t₂ reg).2 =
      [⟨ws, Frame.ackType "success" (kind ++ "_ack")⟩] := by
  have hhb : kind ≠ "heartbeat" := by
    intro h
    rw [h] at hkind
    exact absurd hkind (by decide)
  have hcont : recognizedKinds.contains kind = true := List.elem_iff.mpr hkind
  have hnp1 : findParent (updateHeartbeat client_id t₁ reg) = none :=
    findParent_updateHeartbeat_none client_id t₁ reg hnp
  simp only [handleDataReception, Option.getD_some, if_neg hhb, hcont, if_pos,
    forwardToParent, hnp1]
  rfl

/-- C6 amended, witness: one agent, no controller, `camera` frame. -/
theorem C6_drop_without_error_witness :
    (handleDataReception 20 "A" ⟨some "camera", some 5⟩ 1 2
        [("A", ⟨20, 0, 0, "child"⟩)]).2 =
      [⟨20, Frame.ackType "success" ("camera" ++ "_ack")⟩] :=
  C6_drop_without_error [("A", ⟨20, 0, 0, "child"⟩)] 20 "A" "camera" 5 1 2
    (by decide) (by decide)

/-- C9: an agent frame whose type is neither `heartbeat` nor a recognized
data kind yields exactly one send — an error acknowledgment to the sender
naming the unknown kind — no frame is forwarded to anyone, and registry
membership is unchanged, so the sender's session remains registered. -/
theorem C9_unknown_kind (reg : Registry) (ws : Nat) (client_id kind : String)
    (payload : Payload) (t₁ t₂ : Int)
    (hhb : kind ≠ "heartbeat") (hrec : kind ∉ recognizedKinds) :
    (handleDataReception ws client_id ⟨some kind, some payload⟩ t₁ t₂ reg).2 =
      [⟨ws, Frame.ackMsg "error" ("Unknown data type: " ++ kind)⟩] ∧
    (∀ k, (dictGet k
        (handleDataReception ws client_id ⟨some kind, some payload⟩ t₁ t₂ reg).1).isSome =
      (dictGet k reg).isSome) := by
  have hcont : recognizedKinds.contains kind = false := by
    rw [← Bool.not_eq_true]
    intro h
    exact hrec (List.elem_iff.mp h)
  constructor
  · simp [handleDataReception, hhb, hrec]
  · intro k
    have hred : (handleDataReception ws client_id ⟨some kind, some payload⟩
        t₁ t₂ reg).1 = updateHeartbeat client_id t₁ reg := by
      simp [handleDataReception, hhb, hrec]
    rw [hred, dictGet_updateHeartbeat]
    by_cases h : k = client_id
    · rw [if_pos h]
      rcases dictGet k reg with _ | e <;> rfl
    · rw [if_neg h]

/-- C9 witness: an agent sending `{"type": "bogus"}`. -/
theorem C9_unknown_kind_witness :
    (handleDataReception 20 "A" ⟨some "bogus", some 5⟩ 1 2
        [("A", ⟨20, 0, 0, "child"⟩)]).2 =
      [⟨20, Frame.ackMsg "error" ("Unknown data type: " ++ "bogus")⟩] ∧
    (∀ k, (dictGet k (handleDataReception 20 "A" ⟨some "bogus", some 5⟩ 1 2
        [("A", ⟨20, 0, 0, "child"⟩)]).1).isSome =
      (dictGet k [("A", ⟨20, 0, 0, "child"⟩)]).isSome) :=
  C9_unknown_kind [("A", ⟨20, 0, 0, "child"⟩)] 20 "A" "bogus" 5 1 2
    (by decide) (by decide)

/-- C10 counterexample: after `register P1; register P2; register P1`
(re-registration of `P1`), a Python dict keeps `P1` in its original first
slot, so `forward_to_parent` delivers to `P1` (handle 3) — yet `P2` is a
currently registered parent whose registration time (1) is strictly older
than `P1`'s latest registration time (2), so the recipient is not the
least-recently-registered surviving controller. -/
theorem C10_counterexample :
    dictGet "P1" (registerClient "P1" 3 "parent" 2 2 (registerClient "P2" 2 "parent" 1 1
        (registerClient "P1" 1 "parent" 0 0 []))) = some ⟨3, 2, 2, "parent"⟩ ∧
    dictGet "P2" (registerClient "P1" 3 "parent" 2 2 (registerClient "P2" 2 "parent" 1 1
        (registerClient "P1" 1 "parent" 0 0 []))) = some ⟨2, 1, 1, "parent"⟩ ∧
    ((1 : Int) < 2) ∧
    forwardToParent "A" "camera" 5 9 (registerClient "P1" 3 "parent" 2 2
        (registerClient "P2" 2 "parent" 1 1 (registerClient "P1" 1 "parent" 0 0 []))) =
      [⟨3, Frame.forwardData "camera" "A" 5 9⟩] := by
  decide

/-- C10 amended: `forward_to_parent` is deterministic — it delivers exactly
one frame to the parent session occurring earliest in the Registry's
insertion order among currently registered parents (every entry before it
has a non-parent role), and no other session receives anything; when no
parent is registered nothing is sent.  Because re-registering an id keeps
its original dict position, that recipient is not necessarily the
least-recently-registered controller. -/
theorem C10_forward_to_first_parent (reg : Registry) (child_id data_type : String)
    (payload : Payload) (now : Int) :
    (∀ p e, findParent reg = some (p, e) →
        e.user_type = "parent" ∧
        (∃ pre post, reg = pre ++ (p, e) :: post ∧
          ∀ kv ∈ pre, kv.2.user_type ≠ "parent") ∧
        forwardToParent child_id data_type payload now reg =
          [⟨e.websocket, Frame.forwardData data_type child_id payload now⟩]) ∧
    (findParent reg = none →
        (∀ kv ∈ reg, kv.2.user_type ≠ "parent") ∧
        forwardToParent child_id data_type payload now reg = []) := by
  constructor
  · intro p e hfind
    obtain ⟨hrole, pre, post, hsplit, hpre⟩ := findParent_eq_some reg p e hfind
    refine ⟨hrole, ⟨pre, post, hsplit, hpre⟩, ?_⟩
    rw [forwardToParent, hfind]
  · intro hfind
    refine ⟨(findParent_eq_none_iff reg).mp hfind, ?_⟩
    rw [forwardToParent, hfind]

/-- C10 amended, witness: two registered parents — the frame goes to the
first in insertion order (handle 1), and on an all-agent registry nothing
is sent. -/
theorem C10_forward_to_first_parent_witness :
    ((⟨1, 0, 0, "parent"⟩ : ClientEntry).user_type = "parent" ∧
      (∃ pre post,
        [("P1", ⟨1, 0, 0, "parent"⟩), ("P2", ⟨2, 0, 0, "parent"⟩)] =
          pre ++ ("P1", (⟨1, 0, 0, "parent"⟩ : ClientEntry)) :: post ∧
        ∀ kv ∈ pre, kv.2.user_type ≠ "parent") ∧
      forwardToParent "A" "camera" 5 9
          [("P1", ⟨1, 0, 0, "parent"⟩), ("P2", ⟨2, 0, 0, "parent"⟩)] =
        [⟨1, Frame.forwardData "camera" "A" 5 9⟩]) ∧
    ((∀ kv ∈ ([("A", ⟨20, 0, 0, "child"⟩)] : Registry), kv.2.user_type ≠ "parent") ∧
      forwardToParent "A" "camera" 5 9 [("A", ⟨20, 0, 0, "child"⟩)] = []) :=
  ⟨(C10_forward_to_first_parent
      [("P1", ⟨1, 0, 0, "parent"⟩), ("P2", ⟨2, 0, 0, "parent"⟩)] "A" "camera" 5 9).1
      "P1" ⟨1, 0, 0, "parent"⟩ (by decide),
   (C10_forward_to_first_parent [("A", ⟨20, 0, 0, "child"⟩)] "A" "camera" 5 9).2
      (by decide)⟩

end WatchServer
